/-
Verification development for the mp3-rss YouTube-to-podcast converter
(Go, package main; the evolved `App`-based variant).

The Go source is shallowly embedded: every external command invocation
(yt-dlp, ffmpeg, ffprobe) and every filesystem operation is modelled by an
explicit environment value describing its outcome, and each Go function
becomes a pure Lean function from that environment (plus explicit state)
to its result and the list of progress events it sends on the session
channel.  Goroutine structure is modelled explicitly where it matters:
the two `streamOutput` goroutines that feed yt-dlp's stdout and stderr
lines into the session channel are represented by a merge of the two
line streams under an arbitrary interleaving schedule.

Go strings are modelled as Lean `String` (character-level; Go's byte-level
`len`/slicing coincides with this on ASCII data).
-/
import Mathlib

namespace Mp3Rss

/-! ### String helpers (Go standard library fragments used by the code) -/

/-- Go `strings.Contains hay needle`: `needle` occurs as a substring. -/
def strContains (hay needle : String) : Bool :=
  decide (needle.data <:+: hay.data)

/-- Go `strings.HasPrefix s p` (argument order: the candidate head first). -/
def strStarts (p s : String) : Bool :=
  p.data.isPrefixOf s.data

/-- Go `strings.TrimSpace`: drop whitespace from both ends. -/
def goTrimSpace (s : String) : String :=
  ⟨((s.data.dropWhile Char.isWhitespace).reverse.dropWhile Char.isWhitespace).reverse⟩

/-- Go `strings.TrimSuffix s suf`: remove one trailing occurrence when present. -/
def goTrimEnd (s suf : String) : String :=
  if suf.data.isSuffixOf s.data then ⟨s.data.take (s.data.length - suf.data.length)⟩ else s

/-- First `n` characters of a string (Go slicing `s[:n]`, at character level). -/
def takeStr (n : Nat) (s : String) : String := ⟨s.data.take n⟩

/-- Value of a list of decimal digit characters. -/
def digitsToNat (ds : List Char) : Nat :=
  ds.foldl (fun a c => a * 10 + (c.toNat - 48)) 0

/-- Go `strconv.ParseInt(s, 10, 64)`: optional sign, one or more decimal
digits, nothing else, and the value must fit in a signed 64-bit integer;
any other input (including overflow) is a parse error, here `none`. -/
def parseInt64 (s : String) : Option Int :=
  let (neg, ds) :=
    match s.data with
    | '-' :: r => (true, r)
    | '+' :: r => (false, r)
    | r => (false, r)
  if ds.isEmpty then none
  else if ds.all Char.isDigit then
    let v : Int := if neg then -(digitsToNat ds : Int) else (digitsToNat ds : Int)
    if -(2 ^ 63) ≤ v ∧ v ≤ 2 ^ 63 - 1 then some v else none
  else none

/-- Go `filepath.Join dir file` for a simple two-component join. -/
def joinPath (dir file : String) : String := dir ++ "/" ++ file

/-- The error-event constructor: every failure event the pipeline sends is
the marker `"Error: "` followed by detail text (source: `fmt.Sprintf("Error: ...")`). -/
def errMsg (t : String) : String := "Error: " ++ t

/-- A progress event is error-prefixed when it starts with `Error:`. -/
def isErrorLine (s : String) : Bool :=
  match s.data with
  | 'E' :: 'r' :: 'r' :: 'o' :: 'r' :: ':' :: _ => true
  | _ => false

/-! ### sanitizeFilename (source `sanitizeFilename`) -/

/-- Characters the source replaces: `/ \ : * ? " < > |`. -/
def reservedChar (c : Char) : Bool :=
  c == '/' || c == '\\' || c == ':' || c == '*' || c == '?' ||
  c == '"' || c == '<' || c == '>' || c == '|'

/-- The input the source special-cases (Go raw string `/\:*?"<>|`). -/
def specialAllReserved : String := "/\\:*?\"<>|"

/-- Source `sanitizeFilename`: a hard-coded answer for one special input,
otherwise `strings.Map` replacing each reserved character with `'-'`. -/
def sanitizeFilename (filename : String) : String :=
  if filename = specialAllReserved then "--------"
  else ⟨filename.data.map (fun r => if reservedChar r then '-' else r)⟩

/-! ### URL validation (source `App.handleConvert`) -/

/-- The URL allow-list test from `handleConvert`. -/
def validYoutubeURL (url : String) : Bool :=
  strContains url "youtube.com/watch" ||
  strContains url "youtube.com/playlist" ||
  strStarts "https://youtu.be/" url ||
  strStarts "http://youtu.be/" url ||
  strContains url "youtube-nocookie.com/" ||
  strContains url "m.youtube.com/"

/-! ### Final filename construction (source `App.moveToFinalDestination`) -/

/-- The filename `moveToFinalDestination` builds: sanitized title, truncated
to 100 characters when longer, then `_NORM_` + timestamp or `_` + timestamp,
then `.mp3`. -/
def publishFilename (videoTitle : String) (normalize : Bool) (timestamp : String) : String :=
  let safeTitle := sanitizeFilename videoTitle
  let safeTitle := if safeTitle.length > 100 then takeStr 100 safeTitle else safeTitle
  if normalize then safeTitle ++ "_NORM_" ++ timestamp ++ ".mp3"
  else safeTitle ++ "_" ++ timestamp ++ ".mp3"

/-! ### Filesystem model and the publish step (source `App.moveToFinalDestination`) -/

/-- A file system: path to file contents (a byte list), `none` when absent. -/
abbrev Fs := String → Option (List Nat)

/-- Point update of a file system. -/
def fsUpdate (fs : Fs) (path : String) (v : Option (List Nat)) : Fs :=
  fun p => if p = path then v else fs p

/-- The file operations the publish step may perform; `renameOp` is included
so that its absence from the recorded trace is a provable statement. -/
inductive FileOp
  | openSrc
  | createDst
  | copyBytes
  | removeDst
  | renameOp
  | statDst
deriving DecidableEq

/-- Outcomes of the externally-visible failure points of the publish step:
`os.Create` failure, and `io.Copy` failing after `k` bytes were written. -/
structure PubEnv where
  createErr : Option String
  copyFailAfter : Option Nat

/-- Source `App.moveToFinalDestination`: build the final filename, open the
source file, create the destination, copy the bytes (removing the incomplete
destination if the copy fails), then stat the destination and reject a
zero-byte result.  Returns the result, the final file system and the trace
of file operations performed. -/
def moveToFinalDestination (fs : Fs) (penv : PubEnv) (mp3Dir sourceFile videoTitle : String)
    (normalize : Bool) (timestamp : String) :
    Except String String × Fs × List FileOp :=
  let finalFilename := publishFilename videoTitle normalize timestamp
  let destFile := joinPath mp3Dir finalFilename
  match fs sourceFile with
  | none => (.error ("open source file " ++ sourceFile), fs, [.openSrc])
  | some content =>
    match penv.createErr with
    | some e => (.error ("create destination file " ++ destFile ++ ": " ++ e), fs,
                 [.openSrc, .createDst])
    | none =>
      let fs1 := fsUpdate fs destFile (some [])
      match penv.copyFailAfter with
      | some k =>
        let fs2 := fsUpdate fs1 destFile (some (content.take k))
        let fs3 := fsUpdate fs2 destFile none
        (.error "copy file content", fs3, [.openSrc, .createDst, .copyBytes, .removeDst])
      | none =>
        let fs2 := fsUpdate fs1 destFile (some content)
        match fs2 destFile with
        | none => (.error ("verify copied file " ++ destFile), fs2,
                   [.openSrc, .createDst, .copyBytes, .statDst])
        | some c =>
          if c.length = 0 then
            (.error ("copied file " ++ destFile ++ " has zero bytes"), fs2,
             [.openSrc, .createDst, .copyBytes, .statDst])
          else (.ok finalFilename, fs2, [.openSrc, .createDst, .copyBytes, .statDst])

/-! ### Session registry (source `App.progressMap` under `App.progressMux`) -/

/-- The registry: session id to that session's channel (channel identity is
irrelevant to the claims, so the channel value is `Unit`). -/
abbrev Registry := String → Option Unit

def regInsert (reg : Registry) (sessionId : String) : Registry :=
  fun k => if k = sessionId then some () else reg k

def regErase (reg : Registry) (sessionId : String) : Registry :=
  fun k => if k = sessionId then none else reg k

/-- Registry mutations, recorded so that "destroyed exactly once, never
re-inserted" is a provable statement about a run's trace. -/
inductive RegOp
  | insertOp (sessionId : String)
  | deleteOp (sessionId : String)
deriving DecidableEq

/-! ### External-command environment for one pipeline run -/

/-- Outcomes of every external interaction of one `App.convertVideo` run.
`Except String α` mirrors a Go `(α, error)` pair. -/
structure Env where
  /-- `os.MkdirTemp`: the temporary directory, or an error. -/
  tmpDir : Except String String
  /-- raw stdout of `yt-dlp --print %(title)s` (before `TrimSpace`), or error. -/
  titleOut : Except String String
  /-- raw stdout of `yt-dlp --print %(filesize,filesize_approx)s`, or error. -/
  sizeOut : Except String String
  /-- `cmd.StdoutPipe()` of the download command. -/
  stdoutPipe : Except String Unit
  /-- `cmd.StderrPipe()` of the download command. -/
  stderrPipe : Except String Unit
  /-- `cmd.Start()` of the download command. -/
  dlStart : Except String Unit
  /-- the lines the download subprocess writes to stdout. -/
  dlStdoutLines : List String
  /-- the lines the download subprocess writes to stderr. -/
  dlStderrLines : List String
  /-- `cmd.Wait()` of the download command (error = non-zero exit). -/
  dlWait : Except String Unit
  /-- scheduling choice for the `cmd.Wait()`-error path: the source sends
  the `Download failed` event and returns without `wg.Wait()`, so the two
  streamer goroutines can still deliver buffered lines after it; this is
  the position in the merged line stream at which the error event lands. -/
  dlWaitErrSplit : Nat
  /-- `filepath.Glob(tmpDir/*.*)`: error or the matched files. -/
  glob : Except String (List String)
  /-- the ffmpeg transcode: ok, or (error, combined output). -/
  convertRes : Except (String × String) Unit
  /-- the ffmpeg loudnorm pass: ok, or (error, combined output). -/
  normRes : Except (String × String) Unit
  /-- first `os.Stat` of the normalized file. -/
  normStat1 : Except String Unit
  /-- second `os.Stat` of the normalized file: error, or its size. -/
  normStat2 : Except String Nat
  /-- the file system seen by the publish step. -/
  pubFs : Fs
  /-- failure points of the publish step. -/
  pubEnv : PubEnv
  /-- `time.Now().Format("20060102_150405")`. -/
  timestamp : String

/-! ### The two download streamer goroutines (source `streamOutput`) -/

/-- The merged sequence of channel sends performed by the two concurrent
`streamOutput` goroutines (stdout lines and stderr lines), under an
interleaving schedule: `true` takes the next stdout line, `false` the next
stderr line; an exhausted schedule appends the remainders. -/
def streamMerge : List Bool → List String → List String → List String
  | _, [], ys => ys
  | _, xs, [] => xs
  | [], x :: xs, y :: ys => x :: (xs ++ y :: ys)
  | true :: s, x :: xs, ys => x :: streamMerge s xs ys
  | false :: s, xs, y :: ys => y :: streamMerge s xs ys

/-! ### Pipeline stage functions -/

/-- Source `App.checkFileSize`: error (and an error event) exactly when the
size probe succeeded, its trimmed output parses as an integer, and that
integer exceeds 500 MB; every other outcome passes.  Returns the events sent
and `true` for a nil error. -/
def checkFileSize (sizeOut : Except String String) : List String × Bool :=
  match sizeOut with
  | .error _ => ([], true)
  | .ok out =>
    match parseInt64 (goTrimSpace out) with
    | none => ([], true)
    | some size =>
      if size > 500 * 1024 * 1024 then ([errMsg "File too large (max 500MB)"], false)
      else ([], true)

/-- Source `App.getVideoTitle`: trimmed stdout of the title command. -/
def getVideoTitle (env : Env) : Except String String :=
  env.titleOut.map goTrimSpace

/-- Source `App.downloadVideo`: pipes, start, the two streamer goroutines,
wait, then a glob check that files were produced.  Returns the events sent
and `true` for a nil error.  On the `cmd.Wait()` error path the source
returns without `wg.Wait()`, so buffered streamer lines may be delivered
after the error event: the error lands at the schedule-chosen split
position inside the merged line stream.  On the nil-error path `wg.Wait()`
runs before the glob check, so every streamed line precedes any later
event. -/
def downloadVideo (env : Env) (sched : List Bool) : List String × Bool :=
  match env.stdoutPipe with
  | .error e => ([errMsg ("Failed to create stdout pipe: " ++ e)], false)
  | .ok _ =>
  match env.stderrPipe with
  | .error e => ([errMsg ("Failed to create stderr pipe: " ++ e)], false)
  | .ok _ =>
  match env.dlStart with
  | .error e => ([errMsg ("Failed to start download: " ++ e)], false)
  | .ok _ =>
    let streamed := streamMerge sched env.dlStdoutLines env.dlStderrLines
    match env.dlWait with
    | .error e =>
      (streamed.take env.dlWaitErrSplit ++
        errMsg ("Download failed: " ++ e) :: streamed.drop env.dlWaitErrSplit, false)
    | .ok _ =>
      match env.glob with
      | .error _ => (streamed ++ [errMsg "Failed to check for downloaded files"], false)
      | .ok files =>
        if files.isEmpty then (streamed ++ [errMsg "No files were downloaded"], false)
        else (streamed, true)

/-- Source `App.normalizeAudio`: run the loudnorm pass, then verify the
output file exists and is non-empty; any failure is reported on the channel
(with an `Error:`-prefixed event) and returned as an error, which the caller
treats as recoverable.  Returns the events sent and the normalized file
path or the error. -/
def normalizeAudio (env : Env) (tmpDir : String) : List String × Except String String :=
  let normalizedFile := joinPath tmpDir "normalized.mp3"
  let applying := ["Applying audio normalization..."]
  match env.normRes with
  | .error (e, out) =>
    (applying ++ [errMsg ("Normalization failed: " ++ e ++ ", using original audio"),
                  "FFmpeg output: " ++ out],
     .error ("normalize audio with ffmpeg: " ++ e))
  | .ok _ =>
    match env.normStat1 with
    | .error e =>
      (applying ++ [errMsg ("Normalized file not found: " ++ e ++ ", using original audio")],
       .error ("verify normalized file exists: " ++ e))
    | .ok _ =>
      match env.normStat2 with
      | .error _ =>
        (applying ++ [errMsg "Normalized file has zero bytes, using original audio"],
         .error "normalized file has zero bytes")
      | .ok n =>
        if n = 0 then
          (applying ++ [errMsg "Normalized file has zero bytes, using original audio"],
           .error "normalized file has zero bytes")
        else (applying ++ ["Normalization complete!"], .ok normalizedFile)

/-- Result of the body of `App.convertVideo` (everything before the deferred
cleanup): the events sent on the channel, the file handed to the publish
step and the published filename when the run succeeded, and the final state
of the publish file system. -/
structure BodyOut where
  events : List String
  pubSrc : Option String
  pubName : Option String
  fs : Fs

/-- Source `App.convertVideo`, body only (the deferred registry cleanup is
applied by `convertVideo` below): temp dir, title, size preflight,
download, transcode, optional normalization with fallback to the
un-normalized file, publish, then the success events and `DONE`. -/
def convertVideoBody (env : Env) (sched : List Bool) (normalize : Bool) (mp3Dir : String) :
    BodyOut :=
  let acc := ["Starting download..."]
  match env.tmpDir with
  | .error e => ⟨acc ++ [errMsg ("Failed to create temp directory: " ++ e)], none, none, env.pubFs⟩
  | .ok tmpDir =>
  match getVideoTitle env with
  | .error e => ⟨acc ++ [errMsg ("Failed to get video title: " ++ e)], none, none, env.pubFs⟩
  | .ok videoTitle =>
    let sz := checkFileSize env.sizeOut
    let acc := acc ++ sz.1
    if sz.2 = false then ⟨acc, none, none, env.pubFs⟩
    else
      let dl := downloadVideo env sched
      let acc := acc ++ dl.1
      if dl.2 = false then ⟨acc, none, none, env.pubFs⟩
      else
        match env.glob with
        | .error _ => ⟨acc ++ [errMsg "No audio file found after download"], none, none, env.pubFs⟩
        | .ok [] => ⟨acc ++ [errMsg "No audio file found after download"], none, none, env.pubFs⟩
        | .ok (_ :: _) =>
          let acc := acc ++ ["Converting to MP3 format with optimal quality..."]
          match env.convertRes with
          | .error (e, out) =>
            ⟨acc ++ [errMsg ("MP3 conversion failed: " ++ e), "FFmpeg output: " ++ out],
             none, none, env.pubFs⟩
          | .ok _ =>
            let mp3File := joinPath tmpDir "converted.mp3"
            let norm := if normalize then
                match normalizeAudio env tmpDir with
                | (es, .ok nf) => (es, nf)
                | (es, .error _) => (es, mp3File)
              else ([], mp3File)
            let acc := acc ++ norm.1
            let sourceFile := norm.2
            let moved := moveToFinalDestination env.pubFs env.pubEnv mp3Dir sourceFile
              videoTitle normalize env.timestamp
            match moved.1 with
            | .error e => ⟨acc ++ [errMsg ("Failed to move file: " ++ e)], none, none, moved.2.1⟩
            | .ok finalFilename =>
              ⟨acc ++ ["Successfully saved as: " ++ finalFilename, "Conversion complete!", "DONE"],
               some sourceFile, some finalFilename, moved.2.1⟩

/-- One completed run of `App.convertVideo`, cleanup included. -/
structure Run where
  events : List String
  reg : Registry
  regOps : List RegOp
  closeCount : Nat
  pubSrc : Option String
  pubName : Option String
  fs : Fs

/-- Source `App.convertVideo`: the body above wrapped by the single
`defer`red cleanup, which runs on every exit path and performs exactly one
registry deletion and one channel close. -/
def convertVideo (env : Env) (sched : List Bool) (reg : Registry) (sessionId : String)
    (normalize : Bool) (mp3Dir : String) : Run :=
  let b := convertVideoBody env sched normalize mp3Dir
  ⟨b.events, regErase reg sessionId, [RegOp.deleteOp sessionId], 1, b.pubSrc, b.pubName, b.fs⟩

/-! ### HTTP handlers (source `App.handleConvert`, `App.handleProgress`) -/

/-- The response `handleConvert` produces. -/
inductive ConvertOut
  | methodNotAllowed
  | missingURL
  | invalidURL (msg : String)
  | accepted (sessionId : String)
deriving DecidableEq

/-- An asynchronous pipeline task as started by `go app.convertVideo(...)`. -/
structure PipeTask where
  url : String
  sessionId : String
  normalize : Bool
deriving DecidableEq

/-- Source `App.handleConvert`: method check, empty-URL check, allow-list
validation; on acceptance insert a fresh channel for the generated session
id (`gen` stands for `uuid.New().String()`) and start exactly one pipeline
task.  The response never depends on the pipeline's execution: the function
does not take a pipeline environment at all, mirroring the launcher's
fire-and-forget `go` statement. -/
def handleConvert (isPost : Bool) (url : String) (normalize : Bool) (gen : String)
    (reg : Registry) : ConvertOut × Registry × List PipeTask :=
  if isPost = false then (.methodNotAllowed, reg, [])
  else if url = "" then (.missingURL, reg, [])
  else if validYoutubeURL url = false then
    (.invalidURL "Invalid YouTube URL. Please provide a valid YouTube video or playlist URL.",
     reg, [])
  else (.accepted gen, regInsert reg gen, [⟨url, gen, normalize⟩])

/-- The response `handleProgress` produces before streaming. -/
inductive ProgressOut
  | missingId
  | invalidSession (msg : String)
  | streamFrom (sessionId : String)
deriving DecidableEq

/-- Source `App.handleProgress`, attach phase: empty id is rejected; an id
absent from the registry is rejected with the invalid-session error;
otherwise the handler streams from that session's channel. -/
def handleProgress (reg : Registry) (sessionId : String) : ProgressOut :=
  if sessionId = "" then .missingId
  else
    match reg sessionId with
    | none => .invalidSession "Invalid session ID or conversion already completed"
    | some _ => .streamFrom sessionId

/-! ### Episode listing (source `App.getEpisodes`) -/

structure EpisodeM where
  title : String
  file : String
  duration : String
  pubDate : String
  isNormalized : Bool
deriving DecidableEq

/-- Source `App.getEpisodes` over the base names of the globbed `*.mp3`
files: entries whose `os.Stat` fails are skipped, the title strips the
`.mp3` suffix, and `IsNormalized` is exactly the `strings.Contains`
check for `_NORM_`. -/
def getEpisodes (files : List String) (durationOf modTimeOf : String → String)
    (statOk : String → Bool) : List EpisodeM :=
  (files.filter statOk).map (fun f =>
    ⟨goTrimEnd f ".mp3", f, durationOf f, modTimeOf f, strContains f "_NORM_"⟩)

/-! ### Derived predicates and concrete test data -/

/-- Whether the normalization attempt of a run fails (non-zero ffmpeg exit,
missing output file, or zero-byte output file), read off the environment. -/
def normAttemptFailed (env : Env) : Bool :=
  match env.normRes with
  | .error _ => true
  | .ok _ =>
    match env.normStat1 with
    | .error _ => true
    | .ok _ =>
      match env.normStat2 with
      | .error _ => true
      | .ok n => n == 0

/-- The recoverable error events a failed normalization pass sends. -/
def NormFallbackMsg (s : String) : Prop :=
  (∃ t, s = errMsg ("Normalization failed: " ++ t ++ ", using original audio")) ∨
  (∃ t, s = errMsg ("Normalized file not found: " ++ t ++ ", using original audio")) ∨
  s = errMsg "Normalized file has zero bytes, using original audio"

/-- An environment whose very first step (temp-dir creation) fails. -/
def env0 : Env :=
  ⟨.error "boom", .error "t", .error "s", .ok (), .ok (), .ok (), [], [], .ok (), 0,
   .ok [], .ok (), .ok (), .ok (), .ok 1, fun _ => none, ⟨none, none⟩, "20250101_000000"⟩

/-- An environment where everything succeeds except the normalization pass. -/
def envNormFail : Env :=
  ⟨.ok "/tmp/j", .ok "My Title", .error "probe unavailable", .ok (), .ok (), .ok (),
   [], [], .ok (), 0, .ok ["/tmp/j/a.webm"], .ok (), .error ("exit status 1", "boom"),
   .ok (), .ok 1,
   fun p => if p = "/tmp/j/converted.mp3" then some [7] else none,
   ⟨none, none⟩, "20250101_000000"⟩

/-- A fully succeeding environment whose download subprocess writes one
stdout line and one stderr line. -/
def envTwoLines : Env :=
  ⟨.ok "/tmp/j", .ok "My Title", .error "probe unavailable", .ok (), .ok (), .ok (),
   ["A"], ["B"], .ok (), 0, .ok ["/tmp/j/a.webm"], .ok (), .ok (),
   .ok (), .ok 1,
   fun p => if p = "/tmp/j/converted.mp3" then some [7] else none,
   ⟨none, none⟩, "20250101_000000"⟩

/-- A file system holding one non-empty source file. -/
def fs1 : Fs := fun p => if p = "/tmp/j/converted.mp3" then some [7] else none

/-- A file system holding one empty source file. -/
def fsEmptySrc : Fs := fun p => if p = "/tmp/j/converted.mp3" then some [] else none

/-! ### Helper lemmas -/

theorem isErrorLine_errMsg (t : String) : isErrorLine (errMsg t) = true := rfl

theorem errMsg_ne_done (t : String) : errMsg t ≠ "DONE" := by
  intro h
  have h1 : isErrorLine (errMsg t) = isErrorLine "DONE" := by rw [h]
  rw [isErrorLine_errMsg] at h1
  exact absurd h1.symm (by decide)

theorem ffmpegOut_ne_done (t : String) : "FFmpeg output: " ++ t ≠ "DONE" := by
  intro h
  have h1 : ("FFmpeg output: " ++ t).data.head? = ("DONE" : String).data.head? := by rw [h]
  have h2 : (some 'F' : Option Char) = some 'D' := h1
  exact absurd h2 (by decide)

theorem streamMerge_sublist_left (s : List Bool) :
    ∀ xs ys : List String, List.Sublist xs (streamMerge s xs ys) := by
  induction s with
  | nil =>
    intro xs ys
    cases xs with
    | nil => exact List.nil_sublist _
    | cons x xs =>
      cases ys with
      | nil => exact List.Sublist.refl _
      | cons y ys => exact List.sublist_append_left (x :: xs) (y :: ys)
  | cons b s ih =>
    intro xs ys
    cases b with
    | true =>
      cases xs with
      | nil => exact List.nil_sublist _
      | cons x xs =>
        cases ys with
        | nil => exact List.Sublist.refl _
        | cons y ys => exact (ih xs (y :: ys)).cons₂ x
    | false =>
      cases xs with
      | nil => exact List.nil_sublist _
      | cons x xs =>
        cases ys with
        | nil => exact List.Sublist.refl _
        | cons y ys => exact (ih (x :: xs) ys).cons y

theorem streamMerge_sublist_right (s : List Bool) :
    ∀ xs ys : List String, List.Sublist ys (streamMerge s xs ys) := by
  induction s with
  | nil =>
    intro xs ys
    cases xs with
    | nil =>
      cases ys with
      | nil => exact List.Sublist.refl _
      | cons y ys => exact List.Sublist.refl _
    | cons x xs =>
      cases ys with
      | nil => exact List.nil_sublist _
      | cons y ys => exact List.sublist_append_right (x :: xs) (y :: ys)
  | cons b s ih =>
    intro xs ys
    cases b with
    | true =>
      cases xs with
      | nil =>
        cases ys with
        | nil => exact List.Sublist.refl _
        | cons y ys => exact List.Sublist.refl _
      | cons x xs =>
        cases ys with
        | nil => exact List.nil_sublist _
        | cons y ys => exact (ih xs (y :: ys)).cons x
    | false =>
      cases xs with
      | nil =>
        cases ys with
        | nil => exact List.Sublist.refl _
        | cons y ys => exact List.Sublist.refl _
      | cons x xs =>
        cases ys with
        | nil => exact List.nil_sublist _
        | cons y ys => exact (ih (x :: xs) ys).cons₂ y

theorem mem_streamMerge {x : String} (s : List Bool) :
    ∀ xs ys : List String, x ∈ streamMerge s xs ys → x ∈ xs ∨ x ∈ ys := by
  induction s with
  | nil =>
    intro xs ys h
    cases xs with
    | nil =>
      cases ys with
      | nil => exact Or.inl h
      | cons b bs => exact Or.inr h
    | cons a as =>
      cases ys with
      | nil => exact Or.inl h
      | cons b bs =>
        have h' : x ∈ a :: (as ++ b :: bs) := h
        rcases List.mem_cons.mp h' with h | h
        · exact Or.inl (List.mem_cons.mpr (Or.inl h))
        · rcases List.mem_append.mp h with h | h
          · exact Or.inl (List.mem_cons.mpr (Or.inr h))
          · exact Or.inr h
  | cons c s ih =>
    intro xs ys h
    cases c with
    | true =>
      cases xs with
      | nil =>
        cases ys with
        | nil => exact Or.inl h
        | cons b bs => exact Or.inr h
      | cons a as =>
        cases ys with
        | nil => exact Or.inl h
        | cons b bs =>
          have h' : x ∈ a :: streamMerge s as (b :: bs) := h
          rcases List.mem_cons.mp h' with h | h
          · exact Or.inl (List.mem_cons.mpr (Or.inl h))
          · rcases ih as (b :: bs) h with h | h
            · exact Or.inl (List.mem_cons.mpr (Or.inr h))
            · exact Or.inr h
    | false =>
      cases xs with
      | nil =>
        cases ys with
        | nil => exact Or.inl h
        | cons b bs => exact Or.inr h
      | cons a as =>
        cases ys with
        | nil => exact Or.inl h
        | cons b bs =>
          have h' : x ∈ b :: streamMerge s (a :: as) bs := h
          rcases List.mem_cons.mp h' with h | h
          · exact Or.inr (List.mem_cons.mpr (Or.inl h))
          · rcases ih (a :: as) bs h with h | h
            · exact Or.inl h
            · exact Or.inr (List.mem_cons.mpr (Or.inr h))

/-- Case characterization of the size preflight. -/
theorem checkFileSize_cases (o : Except String String) :
    checkFileSize o = ([], true) ∨
    (checkFileSize o = ([errMsg "File too large (max 500MB)"], false) ∧
      ∃ s n, o = .ok s ∧ parseInt64 (goTrimSpace s) = some n ∧ n > 500 * 1024 * 1024) := by
  rcases o with e | s
  · exact Or.inl rfl
  · rcases hp : parseInt64 (goTrimSpace s) with _ | n
    · exact Or.inl (by simp [checkFileSize, hp])
    · by_cases hn : n > 500 * 1024 * 1024
      · have hn' : (524288000 : Int) < n := by omega
        exact Or.inr ⟨by simp [checkFileSize, hp, hn'], s, n, rfl, hp, hn⟩
      · have hn' : ¬(524288000 : Int) < n := by omega
        exact Or.inl (by simp [checkFileSize, hp, hn'])

/-- Case characterization of the download stage: success leaves exactly the
merged subprocess lines on the channel and guarantees a non-empty glob;
failure appends one error event after either nothing or the merged lines. -/
theorem downloadVideo_cases (env : Env) (sched : List Bool) :
    ((downloadVideo env sched).2 = true ∧
      (downloadVideo env sched).1 = streamMerge sched env.dlStdoutLines env.dlStderrLines ∧
      ∃ f0 rest, env.glob = .ok (f0 :: rest)) ∨
    ((downloadVideo env sched).2 = false ∧
      ∃ p t q, (downloadVideo env sched).1 = p ++ errMsg t :: q ∧
        (∀ x ∈ p, x ∈ env.dlStdoutLines ∨ x ∈ env.dlStderrLines) ∧
        (∀ x ∈ q, x ∈ env.dlStdoutLines ∨ x ∈ env.dlStderrLines)) := by
  rcases h1 : env.stdoutPipe with e | u
  · refine Or.inr ⟨by simp [downloadVideo, h1],
      [], "Failed to create stdout pipe: " ++ e, [], ?_, by simp, by simp⟩
    simp [downloadVideo, h1]
  rcases h2 : env.stderrPipe with e | u
  · refine Or.inr ⟨by simp [downloadVideo, h1, h2],
      [], "Failed to create stderr pipe: " ++ e, [], ?_, by simp, by simp⟩
    simp [downloadVideo, h1, h2]
  rcases h3 : env.dlStart with e | u
  · refine Or.inr ⟨by simp [downloadVideo, h1, h2, h3],
      [], "Failed to start download: " ++ e, [], ?_, by simp, by simp⟩
    simp [downloadVideo, h1, h2, h3]
  rcases h4 : env.dlWait with e | u
  · refine Or.inr ⟨by simp [downloadVideo, h1, h2, h3, h4],
      (streamMerge sched env.dlStdoutLines env.dlStderrLines).take env.dlWaitErrSplit,
      "Download failed: " ++ e,
      (streamMerge sched env.dlStdoutLines env.dlStderrLines).drop env.dlWaitErrSplit,
      ?_, ?_, ?_⟩
    · simp [downloadVideo, h1, h2, h3, h4]
    · intro x hx
      exact mem_streamMerge sched _ _ (List.take_subset _ _ hx)
    · intro x hx
      exact mem_streamMerge sched _ _ (List.drop_subset _ _ hx)
  rcases h5 : env.glob with e | files
  · refine Or.inr ⟨by simp [downloadVideo, h1, h2, h3, h4, h5],
      streamMerge sched env.dlStdoutLines env.dlStderrLines,
      "Failed to check for downloaded files", [], ?_, ?_, by simp⟩
    · simp [downloadVideo, h1, h2, h3, h4, h5]
    · intro x hx
      exact mem_streamMerge sched _ _ hx
  cases files with
  | nil =>
    refine Or.inr ⟨by simp [downloadVideo, h1, h2, h3, h4, h5],
      streamMerge sched env.dlStdoutLines env.dlStderrLines,
      "No files were downloaded", [], ?_, ?_, by simp⟩
    · simp [downloadVideo, h1, h2, h3, h4, h5]
    · intro x hx
      exact mem_streamMerge sched _ _ hx
  | cons f0 rest =>
    refine Or.inl ⟨?_, ?_, f0, rest, rfl⟩
    · simp [downloadVideo, h1, h2, h3, h4, h5]
    · simp [downloadVideo, h1, h2, h3, h4, h5]

/-! ### Claim C8 -/

/-- Claim C8, counterexample: the special-cased all-reserved input has
9 characters but sanitizes to only 8 placeholder characters, so the claimed
length preservation (N reserved characters map to N dashes) fails. -/
theorem claim8_counterexample :
    sanitizeFilename specialAllReserved = "--------" ∧
    specialAllReserved.length = 9 ∧
    (sanitizeFilename specialAllReserved).length = 8 ∧
    specialAllReserved.data.all reservedChar = true := by decide

/-- Claim C8 (amended): for every input other than the special-cased
all-reserved string, sanitizeFilename replaces each reserved character with
one placeholder and leaves every other character unchanged, preserving the
length; any other all-reserved input of length N maps to N placeholders;
and the example input sanitizes as claimed. -/
theorem claim8_sanitizeFilename (s : String) (h : s ≠ specialAllReserved) :
    (sanitizeFilename s).data = s.data.map (fun r => if reservedChar r then '-' else r) ∧
    (sanitizeFilename s).length = s.length ∧
    (s.data.all reservedChar = true →
      (sanitizeFilename s).data = List.replicate s.length '-') ∧
    sanitizeFilename "a/b:c" = "a-b-c" := by
  have hmap : (sanitizeFilename s).data
      = s.data.map (fun r => if reservedChar r then '-' else r) := by
    unfold sanitizeFilename
    rw [if_neg h]
  refine ⟨hmap, ?_, ?_, by decide⟩
  · show (sanitizeFilename s).data.length = s.data.length
    rw [hmap, List.length_map]
  · intro hall
    rw [hmap]
    refine List.eq_replicate_iff.mpr ⟨by rw [List.length_map]; rfl, ?_⟩
    intro b hb
    rcases List.mem_map.mp hb with ⟨c, hc, rfl⟩
    rw [if_pos (List.all_eq_true.mp hall c hc)]

/-- Claim C8, witness for the amended theorem at a concrete input. -/
theorem claim8_sanitizeFilename_witness :
    ("a/b:c" : String) ≠ specialAllReserved ∧
    (sanitizeFilename "a/b:c").data =
      "a/b:c".data.map (fun r => if reservedChar r then '-' else r) :=
  ⟨by decide, (claim8_sanitizeFilename "a/b:c" (by decide)).1⟩

/-! ### Claim C5 -/

/-- Claim C5: the size preflight fails the job, with the single error
event, exactly when the probe command succeeded, its trimmed output parsed
as an integer, and that integer exceeds 500*1024*1024; a failed probe or an
unparsable output soft-fails open with no event. -/
theorem claim5_checkFileSize (o : Except String String) :
    ((checkFileSize o).2 = false ↔
      ∃ s n, o = .ok s ∧ parseInt64 (goTrimSpace s) = some n ∧ n > 500 * 1024 * 1024) ∧
    ((checkFileSize o).2 = false →
      (checkFileSize o).1 = [errMsg "File too large (max 500MB)"]) ∧
    ((checkFileSize o).2 = true → (checkFileSize o).1 = []) := by
  rcases checkFileSize_cases o with h | ⟨h, s, n, ho, hp, hn⟩
  · refine ⟨⟨?_, ?_⟩, ?_, ?_⟩
    · intro habs; rw [h] at habs; exact absurd habs (by decide)
    · rintro ⟨s, n, rfl, hp, hn⟩
      have hn' : (524288000 : Int) < n := by omega
      have h2 : (checkFileSize (Except.ok s)).2 = false := by simp [checkFileSize, hp, hn']
      rw [h] at h2
      exact absurd h2 (by decide)
    · intro habs; rw [h] at habs; exact absurd habs (by decide)
    · intro _; rw [h]
  · refine ⟨⟨fun _ => ⟨s, n, ho, hp, hn⟩, fun _ => by rw [h]⟩, fun _ => by rw [h], ?_⟩
    intro htrue; rw [h] at htrue; exact absurd htrue (by decide)

/-- Claim C5, witness: a successful probe of 600000000 bytes is rejected
with the error event. -/
theorem claim5_checkFileSize_witness :
    (checkFileSize (.ok "600000000")).2 = false ∧
    (checkFileSize (.ok "600000000")).1 = [errMsg "File too large (max 500MB)"] :=
  ⟨by decide, (claim5_checkFileSize (.ok "600000000")).2.1 (by decide)⟩

/-! ### Claim C3 -/

/-- Claim C3: an empty or non-matching URL is rejected with a descriptive
validation error; the registry is unchanged and no pipeline task starts. -/
theorem claim3_handleConvert_rejects (url : String) (normalize : Bool) (gen : String)
    (reg : Registry) (h : url = "" ∨ validYoutubeURL url = false) :
    (handleConvert true url normalize gen reg).2.1 = reg ∧
    (handleConvert true url normalize gen reg).2.2 = [] ∧
    ((handleConvert true url normalize gen reg).1 = ConvertOut.missingURL ∨
      (handleConvert true url normalize gen reg).1 = ConvertOut.invalidURL
        "Invalid YouTube URL. Please provide a valid YouTube video or playlist URL.") := by
  by_cases hurl : url = ""
  · subst hurl
    exact ⟨rfl, rfl, Or.inl rfl⟩
  · have hv : validYoutubeURL url = false := h.resolve_left hurl
    refine ⟨?_, ?_, Or.inr ?_⟩ <;> simp [handleConvert, hurl, hv]

/-- Claim C3, witness at a concrete invalid URL. -/
theorem claim3_handleConvert_rejects_witness :
    (handleConvert true "notaurl" false "sid" (fun _ => none)).2.2 = [] :=
  (claim3_handleConvert_rejects "notaurl" false "sid" (fun _ => none)
    (Or.inr (by decide))).2.1

/-! ### Claim C4 -/

/-- Claim C4: an accepted submission registers a channel under the generated
session id (leaving every other id untouched), starts exactly one pipeline
task, and returns the session id; the response is computed without any
dependence on the pipeline's execution. -/
theorem claim4_handleConvert_accepts (url : String) (normalize : Bool) (gen : String)
    (reg : Registry) (hv : validYoutubeURL url = true) :
    (handleConvert true url normalize gen reg).1 = ConvertOut.accepted gen ∧
    (handleConvert true url normalize gen reg).2.1 gen = some () ∧
    (∀ k, k ≠ gen → (handleConvert true url normalize gen reg).2.1 k = reg k) ∧
    (handleConvert true url normalize gen reg).2.2 = [⟨url, gen, normalize⟩] := by
  have hurl : url ≠ "" := by
    intro he
    rw [he] at hv
    exact absurd hv (by decide)
  refine ⟨?_, ?_, ?_, ?_⟩
  · simp [handleConvert, hurl, hv]
  · simp [handleConvert, hurl, hv, regInsert]
  · intro k hk
    simp [handleConvert, hurl, hv, regInsert, hk]
  · simp [handleConvert, hurl, hv]

/-- Claim C4, witness at a concrete accepted URL. -/
theorem claim4_handleConvert_accepts_witness :
    (handleConvert true "https://youtu.be/x" false "sid" (fun _ => none)).1 =
      ConvertOut.accepted "sid" :=
  (claim4_handleConvert_accepts "https://youtu.be/x" false "sid" (fun _ => none) (by decide)).1

/-! ### Claim C1 -/

/-- Claim C1: on every run and every exit path, the single deferred cleanup
removes the session from the registry and closes its channel exactly once;
the run's registry trace is exactly one deletion (so a removed id is never
re-inserted by the pipeline), other ids are untouched, and a subsequent
progress attach on the removed id reports the invalid-session error. -/
theorem claim1_cleanup (env : Env) (sched : List Bool) (reg : Registry) (sessionId : String)
    (normalize : Bool) (mp3Dir : String) (hid : sessionId ≠ "") :
    (convertVideo env sched reg sessionId normalize mp3Dir).reg sessionId = none ∧
    handleProgress (convertVideo env sched reg sessionId normalize mp3Dir).reg sessionId
      = ProgressOut.invalidSession "Invalid session ID or conversion already completed" ∧
    (convertVideo env sched reg sessionId normalize mp3Dir).regOps =
      [RegOp.deleteOp sessionId] ∧
    (convertVideo env sched reg sessionId normalize mp3Dir).closeCount = 1 ∧
    (∀ k, k ≠ sessionId →
      (convertVideo env sched reg sessionId normalize mp3Dir).reg k = reg k) := by
  refine ⟨?_, ?_, rfl, rfl, ?_⟩
  · simp [convertVideo, regErase]
  · simp [convertVideo, handleProgress, regErase, hid]
  · intro k hk
    simp [convertVideo, regErase, hk]

/-- Claim C1, witness at a concrete run whose session was registered. -/
theorem claim1_cleanup_witness :
    (convertVideo env0 [] (fun _ => some ()) "sid" false "mp3s").reg "sid" = none ∧
    handleProgress (convertVideo env0 [] (fun _ => some ()) "sid" false "mp3s").reg "sid"
      = ProgressOut.invalidSession "Invalid session ID or conversion already completed" :=
  ⟨(claim1_cleanup env0 [] (fun _ => some ()) "sid" false "mp3s" (by decide)).1,
   (claim1_cleanup env0 [] (fun _ => some ()) "sid" false "mp3s" (by decide)).2.1⟩

/-- Case characterization of the publish step: on error the destination is
absent, untouched, or a complete (byte-for-byte, necessarily empty) copy of
the source; on success the destination is a complete non-empty copy and the
returned name is exactly `publishFilename`. -/
theorem moveToFinalDestination_cases (fs : Fs) (penv : PubEnv) (dir src t : String)
    (n : Bool) (ts : String) :
    (∃ e, (moveToFinalDestination fs penv dir src t n ts).1 = Except.error e ∧
      ((moveToFinalDestination fs penv dir src t n ts).2.1
          (joinPath dir (publishFilename t n ts)) = none ∨
        (moveToFinalDestination fs penv dir src t n ts).2.1 = fs ∨
        ∃ content, fs src = some content ∧ content.length = 0 ∧
          (moveToFinalDestination fs penv dir src t n ts).2.1
            (joinPath dir (publishFilename t n ts)) = some content)) ∨
    (∃ content, (moveToFinalDestination fs penv dir src t n ts).1 =
        Except.ok (publishFilename t n ts) ∧ fs src = some content ∧ content.length ≠ 0 ∧
      (moveToFinalDestination fs penv dir src t n ts).2.1
        (joinPath dir (publishFilename t n ts)) = some content) := by
  rcases hsrc : fs src with _ | content
  · refine Or.inl ⟨"open source file " ++ src, ?_, Or.inr (Or.inl ?_)⟩ <;>
      simp [moveToFinalDestination, hsrc]
  rcases hce : penv.createErr with _ | e
  · rcases hcf : penv.copyFailAfter with _ | k
    · by_cases hlen : content.length = 0
      · refine Or.inl
          ⟨"copied file " ++ joinPath dir (publishFilename t n ts) ++ " has zero bytes", ?_,
            Or.inr (Or.inr ⟨content, rfl, hlen, ?_⟩)⟩ <;>
          simp [moveToFinalDestination, hsrc, hce, hcf, fsUpdate, hlen]
      · refine Or.inr ⟨content, ?_, rfl, hlen, ?_⟩ <;>
          simp [moveToFinalDestination, hsrc, hce, hcf, fsUpdate, hlen]
    · refine Or.inl ⟨"copy file content", ?_, Or.inl ?_⟩ <;>
        simp [moveToFinalDestination, hsrc, hce, hcf, fsUpdate]
  · refine Or.inl
      ⟨"create destination file " ++ joinPath dir (publishFilename t n ts) ++ ": " ++ e,
        ?_, Or.inr (Or.inl ?_)⟩ <;>
      simp [moveToFinalDestination, hsrc, hce]

/-- The publish step never performs a rename: its recorded operation trace
contains no rename on any path. -/
theorem move_no_rename (fs : Fs) (penv : PubEnv) (dir src t : String) (n : Bool) (ts : String) :
    FileOp.renameOp ∉ (moveToFinalDestination fs penv dir src t n ts).2.2 := by
  rcases hsrc : fs src with _ | content
  · simp [moveToFinalDestination, hsrc]
  rcases hce : penv.createErr with _ | e
  · rcases hcf : penv.copyFailAfter with _ | k
    · by_cases hlen : content.length = 0 <;>
        simp [moveToFinalDestination, hsrc, hce, hcf, fsUpdate, hlen]
    · simp [moveToFinalDestination, hsrc, hce, hcf]
  · simp [moveToFinalDestination, hsrc, hce]

/-- When the byte copy fails partway, the partially written destination file
is removed before the error is returned. -/
theorem move_copyFail (fs : Fs) (penv : PubEnv) (dir src t : String) (n : Bool) (ts : String)
    (content : List Nat) (k : Nat) (hsrc : fs src = some content)
    (hce : penv.createErr = none) (hcf : penv.copyFailAfter = some k) :
    (moveToFinalDestination fs penv dir src t n ts).1 = Except.error "copy file content" ∧
    (moveToFinalDestination fs penv dir src t n ts).2.1
      (joinPath dir (publishFilename t n ts)) = none := by
  constructor <;> simp [moveToFinalDestination, hsrc, hce, hcf, fsUpdate]

/-- When everything succeeds and the source is non-empty, the publish step
returns the constructed filename and the destination holds the source's
bytes. -/
theorem move_ok (fs : Fs) (penv : PubEnv) (dir src t : String) (n : Bool) (ts : String)
    (content : List Nat) (hsrc : fs src = some content) (hlen : content.length ≠ 0)
    (hce : penv.createErr = none) (hcf : penv.copyFailAfter = none) :
    (moveToFinalDestination fs penv dir src t n ts).1 =
      Except.ok (publishFilename t n ts) ∧
    (moveToFinalDestination fs penv dir src t n ts).2.1
      (joinPath dir (publishFilename t n ts)) = some content := by
  constructor <;> simp [moveToFinalDestination, hsrc, hce, hcf, fsUpdate, hlen]

/-- A destination that stats at zero bytes is reported as an error. -/
theorem move_zeroByte (fs : Fs) (penv : PubEnv) (dir src t : String) (n : Bool) (ts : String)
    (content : List Nat) (hsrc : fs src = some content) (hlen : content.length = 0)
    (hce : penv.createErr = none) (hcf : penv.copyFailAfter = none) :
    ∃ e, (moveToFinalDestination fs penv dir src t n ts).1 = Except.error e := by
  refine ⟨"copied file " ++ joinPath dir (publishFilename t n ts) ++ " has zero bytes", ?_⟩
  simp [moveToFinalDestination, hsrc, hce, hcf, fsUpdate, hlen]

/-! ### Claim C7 -/

/-- Claim C7: the publish step copies and never renames; if the byte copy
fails the partially written destination file is removed before the error is
reported; a destination that stats at zero bytes is reported as an error
rather than accepted; and on every error path the destination file is
absent, untouched, or a complete (never partial) copy of the source. -/
theorem claim7_publishSafety (fs : Fs) (penv : PubEnv) (dir src t : String) (n : Bool)
    (ts : String) :
    FileOp.renameOp ∉ (moveToFinalDestination fs penv dir src t n ts).2.2 ∧
    (∀ content k, fs src = some content → penv.createErr = none →
      penv.copyFailAfter = some k →
      (moveToFinalDestination fs penv dir src t n ts).1 = Except.error "copy file content" ∧
      (moveToFinalDestination fs penv dir src t n ts).2.1
        (joinPath dir (publishFilename t n ts)) = none) ∧
    (∀ content, fs src = some content → content.length = 0 → penv.createErr = none →
      penv.copyFailAfter = none →
      ∃ e, (moveToFinalDestination fs penv dir src t n ts).1 = Except.error e) ∧
    (∀ f, (moveToFinalDestination fs penv dir src t n ts).1 = Except.ok f →
      ∃ c, (moveToFinalDestination fs penv dir src t n ts).2.1 (joinPath dir f) = some c ∧
        c.length ≠ 0) ∧
    (∀ e, (moveToFinalDestination fs penv dir src t n ts).1 = Except.error e →
      (moveToFinalDestination fs penv dir src t n ts).2.1
          (joinPath dir (publishFilename t n ts)) = none ∨
        (moveToFinalDestination fs penv dir src t n ts).2.1 = fs ∨
        ∃ c, fs src = some c ∧
          (moveToFinalDestination fs penv dir src t n ts).2.1
            (joinPath dir (publishFilename t n ts)) = some c) := by
  refine ⟨move_no_rename fs penv dir src t n ts, ?_, ?_, ?_, ?_⟩
  · intro content k h1 h2 h3
    exact move_copyFail fs penv dir src t n ts content k h1 h2 h3
  · intro content h1 h2 h3 h4
    exact move_zeroByte fs penv dir src t n ts content h1 h2 h3 h4
  · intro f hok
    rcases moveToFinalDestination_cases fs penv dir src t n ts with ⟨e, he, _⟩ | ⟨c, hc, _, hlen, hdest⟩
    · rw [he] at hok; exact absurd hok (by simp)
    · rw [hc] at hok
      have hf : f = publishFilename t n ts := by
        injection hok with h
        exact h.symm
      subst hf
      exact ⟨c, hdest, hlen⟩
  · intro e he
    rcases moveToFinalDestination_cases fs penv dir src t n ts with ⟨e2, _, hrest⟩ | ⟨c, hc, _, _, _⟩
    · rcases hrest with h | h | ⟨c, hc1, _, hc3⟩
      · exact Or.inl h
      · exact Or.inr (Or.inl h)
      · exact Or.inr (Or.inr ⟨c, hc1, hc3⟩)
    · rw [hc] at he; exact absurd he (by simp)

/-- Claim C7, witness: copy failure at a concrete input removes the
destination before reporting the error. -/
theorem claim7_publishSafety_witness :
    fs1 "/tmp/j/converted.mp3" = some [7] ∧
    (moveToFinalDestination fs1 ⟨none, some 0⟩ "mp3s" "/tmp/j/converted.mp3" "T" false
        "20250101_000000").1 = Except.error "copy file content" ∧
    (moveToFinalDestination fs1 ⟨none, some 0⟩ "mp3s" "/tmp/j/converted.mp3" "T" false
        "20250101_000000").2.1
      (joinPath "mp3s" (publishFilename "T" false "20250101_000000")) = none :=
  ⟨by decide,
   ((claim7_publishSafety fs1 ⟨none, some 0⟩ "mp3s" "/tmp/j/converted.mp3" "T" false
      "20250101_000000").2.1 [7] 0 (by decide) rfl rfl).1,
   ((claim7_publishSafety fs1 ⟨none, some 0⟩ "mp3s" "/tmp/j/converted.mp3" "T" false
      "20250101_000000").2.1 [7] 0 (by decide) rfl rfl).2⟩

/-! ### Claim C10 -/

/-- Claim C10, counterexample: for a non-normalized run the filename is
title, underscore, timestamp, extension — not title immediately followed by
the timestamp as the claim's formula states. -/
theorem claim10_counterexample :
    publishFilename "a" false "20250101_000000" = "a_20250101_000000.mp3" ∧
    publishFilename "a" false "20250101_000000" ≠ "a" ++ "20250101_000000" ++ ".mp3" := by
  constructor
  · decide
  · decide

/-- Claim C10 (amended): the published filename equals the sanitized title
truncated to at most 100 characters, followed by `_NORM_` when
normalization was requested and by `_` otherwise, followed by the timestamp
and the `.mp3` extension; the publish step returns exactly this name on
success; and getEpisodes reports an episode as normalized exactly when its
filename contains `_NORM_`. -/
theorem claim10_filenameShape :
    (∀ t n ts, publishFilename t n ts =
      takeStr 100 (sanitizeFilename t) ++ (if n then "_NORM_" else "_") ++ ts ++ ".mp3") ∧
    (∀ fs penv dir src t n ts f,
      (moveToFinalDestination fs penv dir src t n ts).1 = Except.ok f →
      f = publishFilename t n ts) ∧
    (∀ files durOf modOf statOk e, e ∈ getEpisodes files durOf modOf statOk →
      e.isNormalized = strContains e.file "_NORM_") := by
  refine ⟨?_, ?_, ?_⟩
  · intro t n ts
    unfold publishFilename
    by_cases h : (sanitizeFilename t).length > 100
    · cases n <;> simp [h, takeStr]
    · have heq : takeStr 100 (sanitizeFilename t) = sanitizeFilename t := by
        have h2 : List.take 100 (sanitizeFilename t).data = (sanitizeFilename t).data :=
          List.take_of_length_le (Nat.le_of_not_lt h)
        unfold takeStr
        rw [h2]
      cases n <;> simp [h, heq]
  · intro fs penv dir src t n ts f hok
    rcases moveToFinalDestination_cases fs penv dir src t n ts with ⟨e, he, _⟩ | ⟨c, hc, _⟩
    · rw [he] at hok; exact absurd hok (by simp)
    · rw [hc] at hok
      injection hok with h
      exact h.symm
  · intro files durOf modOf statOk e he
    rcases List.mem_map.mp he with ⟨f, _, rfl⟩
    rfl

/-- Claim C10, witness for the amended theorem at a concrete episode. -/
theorem claim10_filenameShape_witness :
    (⟨"x_NORM_1", "x_NORM_1.mp3", "d", "m", true⟩ : EpisodeM) ∈
      getEpisodes ["x_NORM_1.mp3"] (fun _ => "d") (fun _ => "m") (fun _ => true) ∧
    (⟨"x_NORM_1", "x_NORM_1.mp3", "d", "m", true⟩ : EpisodeM).isNormalized =
      strContains "x_NORM_1.mp3" "_NORM_" :=
  ⟨by decide,
   claim10_filenameShape.2.2 ["x_NORM_1.mp3"] (fun _ => "d") (fun _ => "m") (fun _ => true)
     ⟨"x_NORM_1", "x_NORM_1.mp3", "d", "m", true⟩ (by decide)⟩

/-- Event and result characterization of the normalization pass: it never
sends `DONE`, its only error-prefixed events are the recoverable fallback
messages, and it returns an error exactly when the attempt failed. -/
theorem normalizeAudio_events (env : Env) (td : String) :
    (∀ x ∈ (normalizeAudio env td).1, x ≠ "DONE" ∧
      (isErrorLine x = true → NormFallbackMsg x)) ∧
    (normAttemptFailed env = true → ∃ err, (normalizeAudio env td).2 = Except.error err) ∧
    (normAttemptFailed env = false →
      (normalizeAudio env td).2 = Except.ok (joinPath td "normalized.mp3")) := by
  rcases hr : env.normRes with ⟨e, out⟩ | u
  · refine ⟨?_, fun _ => ⟨"normalize audio with ffmpeg: " ++ e, by simp [normalizeAudio, hr]⟩,
      fun hf => ?_⟩
    · intro x hx
      have hx' : x ∈ ["Applying audio normalization...",
          errMsg ("Normalization failed: " ++ e ++ ", using original audio"),
          "FFmpeg output: " ++ out] := by
        simpa [normalizeAudio, hr] using hx
      rcases List.mem_cons.mp hx' with rfl | hx'
      · exact ⟨by decide, fun hl => absurd hl (by decide)⟩
      rcases List.mem_cons.mp hx' with rfl | hx'
      · exact ⟨errMsg_ne_done _, fun _ => Or.inl ⟨e, rfl⟩⟩
      rcases List.mem_cons.mp hx' with rfl | hx'
      · exact ⟨ffmpegOut_ne_done out, fun hl => absurd hl (by exact (by rfl : isErrorLine ("FFmpeg output: " ++ out) = false) ▸ by decide)⟩
      · exact absurd hx' (by simp)
    · rw [normAttemptFailed, hr] at hf
      simp at hf
  rcases hs1 : env.normStat1 with e | u1
  · refine ⟨?_, fun _ => ⟨"verify normalized file exists: " ++ e,
      by simp [normalizeAudio, hr, hs1]⟩, fun hf => ?_⟩
    · intro x hx
      have hx' : x ∈ ["Applying audio normalization...",
          errMsg ("Normalized file not found: " ++ e ++ ", using original audio")] := by
        simpa [normalizeAudio, hr, hs1] using hx
      rcases List.mem_cons.mp hx' with rfl | hx'
      · exact ⟨by decide, fun hl => absurd hl (by decide)⟩
      rcases List.mem_cons.mp hx' with rfl | hx'
      · exact ⟨errMsg_ne_done _, fun _ => Or.inr (Or.inl ⟨e, rfl⟩)⟩
      · exact absurd hx' (by simp)
    · rw [normAttemptFailed, hr, hs1] at hf
      simp at hf
  rcases hs2 : env.normStat2 with e | nsize
  · refine ⟨?_, fun _ => ⟨"normalized file has zero bytes",
      by simp [normalizeAudio, hr, hs1, hs2]⟩, fun hf => ?_⟩
    · intro x hx
      have hx' : x ∈ ["Applying audio normalization...",
          errMsg "Normalized file has zero bytes, using original audio"] := by
        simpa [normalizeAudio, hr, hs1, hs2] using hx
      rcases List.mem_cons.mp hx' with rfl | hx'
      · exact ⟨by decide, fun hl => absurd hl (by decide)⟩
      rcases List.mem_cons.mp hx' with rfl | hx'
      · exact ⟨errMsg_ne_done _, fun _ => Or.inr (Or.inr rfl)⟩
      · exact absurd hx' (by simp)
    · rw [normAttemptFailed, hr, hs1, hs2] at hf
      simp at hf
  by_cases hz : nsize = 0
  · refine ⟨?_, fun _ => ⟨"normalized file has zero bytes",
      by simp [normalizeAudio, hr, hs1, hs2, hz]⟩, fun hf => ?_⟩
    · intro x hx
      have hx' : x ∈ ["Applying audio normalization...",
          errMsg "Normalized file has zero bytes, using original audio"] := by
        simpa [normalizeAudio, hr, hs1, hs2, hz] using hx
      rcases List.mem_cons.mp hx' with rfl | hx'
      · exact ⟨by decide, fun hl => absurd hl (by decide)⟩
      rcases List.mem_cons.mp hx' with rfl | hx'
      · exact ⟨errMsg_ne_done _, fun _ => Or.inr (Or.inr rfl)⟩
      · exact absurd hx' (by simp)
    · rw [normAttemptFailed, hr, hs1, hs2] at hf
      simp [hz] at hf
  · refine ⟨?_, fun ht => ?_, fun _ => by simp [normalizeAudio, hr, hs1, hs2, hz]⟩
    · intro x hx
      have hx' : x ∈ ["Applying audio normalization...", "Normalization complete!"] := by
        simpa [normalizeAudio, hr, hs1, hs2, hz] using hx
      rcases List.mem_cons.mp hx' with rfl | hx'
      · exact ⟨by decide, fun hl => absurd hl (by decide)⟩
      rcases List.mem_cons.mp hx' with rfl | hx'
      · exact ⟨by decide, fun hl => absurd hl (by decide)⟩
      · exact absurd hx' (by simp)
    · rw [normAttemptFailed, hr, hs1, hs2] at ht
      simp [hz] at ht

/-! ### Claim C6 -/

/-- Claim C6: when transcoding succeeds, normalization was requested and the
normalization pass fails, the pipeline hands the pre-normalization
transcoded file to the publish step and, with the publish step succeeding,
the run ends with the success message, `Conversion complete!` and `DONE`. -/
theorem claim6_normalizeFallback (env : Env) (sched : List Bool) (reg : Registry)
    (sid mp3Dir td rawT f0 : String) (rest : List String) (content : List Nat)
    (h1 : env.tmpDir = Except.ok td)
    (h2 : env.titleOut = Except.ok rawT)
    (h3 : (checkFileSize env.sizeOut).2 = true)
    (h4 : env.stdoutPipe = Except.ok ())
    (h5 : env.stderrPipe = Except.ok ())
    (h6 : env.dlStart = Except.ok ())
    (h7 : env.dlWait = Except.ok ())
    (h8 : env.glob = Except.ok (f0 :: rest))
    (h9 : env.convertRes = Except.ok ())
    (h10 : normAttemptFailed env = true)
    (h11 : env.pubFs (joinPath td "converted.mp3") = some content)
    (h12 : content.length ≠ 0)
    (h13 : env.pubEnv.createErr = none)
    (h14 : env.pubEnv.copyFailAfter = none) :
    (convertVideo env sched reg sid true mp3Dir).pubSrc =
      some (joinPath td "converted.mp3") ∧
    (convertVideo env sched reg sid true mp3Dir).pubName =
      some (publishFilename (goTrimSpace rawT) true env.timestamp) ∧
    ∃ p, (convertVideo env sched reg sid true mp3Dir).events = p ++
      ["Successfully saved as: " ++ publishFilename (goTrimSpace rawT) true env.timestamp,
       "Conversion complete!", "DONE"] := by
  have ht : getVideoTitle env = Except.ok (goTrimSpace rawT) := by
    rw [getVideoTitle, h2]
    rfl
  have hsz1 : (checkFileSize env.sizeOut).1 = [] := by
    rcases checkFileSize_cases env.sizeOut with hcc | ⟨hcc, _⟩
    · rw [hcc]
    · rw [hcc] at h3
      exact absurd h3 (by decide)
  have hdl : downloadVideo env sched =
      (streamMerge sched env.dlStdoutLines env.dlStderrLines, true) := by
    simp [downloadVideo, h4, h5, h6, h7, h8]
  rcases hna : normalizeAudio env td with ⟨nes, nres⟩
  rcases (normalizeAudio_events env td).2.1 h10 with ⟨err, herr⟩
  rw [hna] at herr
  subst herr
  have hmv := move_ok env.pubFs env.pubEnv mp3Dir (joinPath td "converted.mp3")
    (goTrimSpace rawT) true env.timestamp content h11 h12 h13 h14
  refine ⟨?_, ?_, ?_⟩
  · simp [convertVideo, convertVideoBody, h1, ht, h3, hsz1, hdl, h8, h9, hna, hmv.1]
  · simp [convertVideo, convertVideoBody, h1, ht, h3, hsz1, hdl, h8, h9, hna, hmv.1]
  · refine ⟨"Starting download..." :: (streamMerge sched env.dlStdoutLines env.dlStderrLines
      ++ "Converting to MP3 format with optimal quality..." :: nes), ?_⟩
    simp [convertVideo, convertVideoBody, h1, ht, h3, hsz1, hdl, h8, h9, hna, hmv.1]

/-- Claim C6, witness at a concrete run with a failing normalization pass. -/
theorem claim6_normalizeFallback_witness :
    (convertVideo envNormFail [] (fun _ => none) "sid" true "mp3s").pubSrc =
      some (joinPath "/tmp/j" "converted.mp3") ∧
    (convertVideo envNormFail [] (fun _ => none) "sid" true "mp3s").pubName =
      some (publishFilename "My Title" true "20250101_000000") :=
  ⟨(claim6_normalizeFallback envNormFail [] (fun _ => none) "sid" "mp3s" "/tmp/j"
      "My Title" "/tmp/j/a.webm" [] [7] rfl rfl (by decide) rfl rfl rfl rfl rfl rfl
      (by decide) (by decide) (by decide) rfl rfl).1,
   (claim6_normalizeFallback envNormFail [] (fun _ => none) "sid" "mp3s" "/tmp/j"
      "My Title" "/tmp/j/a.webm" [] [7] rfl rfl (by decide) rfl rfl rfl rfl rfl rfl
      (by decide) (by decide) (by decide) rfl rfl).2.1⟩

/-! ### Claim C9 -/

/-- Claim C9, counterexample: with one stdout line and one stderr line, two
different interleaving schedules of the two concurrent streamer goroutines
deliver the channel events in different orders, so the consumer-visible
order is not determined by a single pipeline writer. -/
theorem claim9_counterexample :
    (downloadVideo envTwoLines [true]).1 ≠ (downloadVideo envTwoLines [false]).1 := by
  decide

/-- Claim C9 (amended): during the download stage the pipeline's two
streamer tasks both write to the channel; every delivered event comes from
one of the two streams, and each stream's lines appear in the delivered
sequence in their original order (as a sublist), while the interleaving
between the two streams is schedule-dependent. -/
theorem claim9_streamOrder (env : Env) (sched : List Bool)
    (h1 : env.stdoutPipe = Except.ok ())
    (h2 : env.stderrPipe = Except.ok ())
    (h3 : env.dlStart = Except.ok ()) :
    List.Sublist env.dlStdoutLines (downloadVideo env sched).1 ∧
    List.Sublist env.dlStderrLines (downloadVideo env sched).1 ∧
    (∀ x, x ∈ streamMerge sched env.dlStdoutLines env.dlStderrLines →
      x ∈ env.dlStdoutLines ∨ x ∈ env.dlStderrLines) := by
  have hsub : List.Sublist (streamMerge sched env.dlStdoutLines env.dlStderrLines)
      (downloadVideo env sched).1 := by
    rcases h4 : env.dlWait with e | u
    · have hev : (downloadVideo env sched).1 =
          (streamMerge sched env.dlStdoutLines env.dlStderrLines).take env.dlWaitErrSplit ++
          errMsg ("Download failed: " ++ e) ::
            (streamMerge sched env.dlStdoutLines env.dlStderrLines).drop
              env.dlWaitErrSplit := by
        simp [downloadVideo, h1, h2, h3, h4]
      rw [hev]
      conv_lhs => rw [← List.take_append_drop env.dlWaitErrSplit
        (streamMerge sched env.dlStdoutLines env.dlStderrLines)]
      exact List.Sublist.append_left ((List.Sublist.refl _).cons _) _
    rcases h5 : env.glob with e | files
    · have hev : (downloadVideo env sched).1 =
          streamMerge sched env.dlStdoutLines env.dlStderrLines ++
          [errMsg "Failed to check for downloaded files"] := by
        simp [downloadVideo, h1, h2, h3, h4, h5]
      rw [hev]
      exact List.sublist_append_left _ _
    cases files with
    | nil =>
      have hev : (downloadVideo env sched).1 =
          streamMerge sched env.dlStdoutLines env.dlStderrLines ++
          [errMsg "No files were downloaded"] := by
        simp [downloadVideo, h1, h2, h3, h4, h5]
      rw [hev]
      exact List.sublist_append_left _ _
    | cons f0 rest =>
      have hev : (downloadVideo env sched).1 =
          streamMerge sched env.dlStdoutLines env.dlStderrLines := by
        simp [downloadVideo, h1, h2, h3, h4, h5]
      rw [hev]
  exact ⟨(streamMerge_sublist_left sched _ _).trans hsub,
    (streamMerge_sublist_right sched _ _).trans hsub,
    fun x hx => mem_streamMerge sched _ _ hx⟩

/-- Claim C9, witness for the amended theorem at a concrete run. -/
theorem claim9_streamOrder_witness :
    List.Sublist envTwoLines.dlStdoutLines (downloadVideo envTwoLines [true]).1 :=
  (claim9_streamOrder envTwoLines [true] rfl rfl rfl).1

theorem isErrorLine_saved (f : String) :
    isErrorLine ("Successfully saved as: " ++ f) = false := rfl

theorem isErrorLine_ffmpegOut (u : String) :
    isErrorLine ("FFmpeg output: " ++ u) = false := rfl

/-- Shape of a terminal-failure event list: an error event after which only
events satisfying `cls` (in the pipeline: raw subprocess output lines or the
ffmpeg diagnostic) are delivered, none of them `DONE`. -/
theorem failShape (es p tl0 : List String) (t : String) (cls : String → Prop)
    (hshape : es = p ++ errMsg t :: tl0) (hp : "DONE" ∉ p) (hd : "DONE" ∉ tl0)
    (hcls : ∀ x ∈ tl0, cls x) :
    "DONE" ∉ es ∧ (∃ e, e ∈ es ∧ isErrorLine e = true) ∧
    (∃ q e2 tl, es = q ++ e2 :: tl ∧ isErrorLine e2 = true ∧ ∀ x ∈ tl, cls x) := by
  subst hshape
  refine ⟨?_, ⟨errMsg t, by simp, isErrorLine_errMsg t⟩,
    ⟨p, errMsg t, tl0, rfl, isErrorLine_errMsg t, hcls⟩⟩
  intro hmem
  rcases List.mem_append.mp hmem with h | h
  · exact hp h
  · rcases List.mem_cons.mp h with hh | hh
    · exact errMsg_ne_done t hh.symm
    · exact hd hh

/-- `DONE` does not occur before the publish step's result is handled. -/
theorem doneNotInP (stdoutL stderrL merged nes : List String)
    (hd1 : "DONE" ∉ stdoutL) (hd2 : "DONE" ∉ stderrL)
    (hm : ∀ x ∈ merged, x ∈ stdoutL ∨ x ∈ stderrL)
    (hn : ∀ x ∈ nes, x ≠ "DONE") :
    "DONE" ∉ ("Starting download..." :: merged ++
      "Converting to MP3 format with optimal quality..." :: nes) := by
  intro hm2
  rcases List.mem_cons.mp hm2 with hh | hh
  · exact absurd hh (by decide)
  rcases List.mem_append.mp hh with hh | hh
  · rcases hm _ hh with h | h
    · exact hd1 h
    · exact hd2 h
  rcases List.mem_cons.mp hh with hh | hh
  · exact absurd hh (by decide)
  · exact hn _ hh rfl

/-- Error-line classification of a successful run's event list. -/
theorem successClassify (stdoutL stderrL merged nes : List String) (f : String)
    (hm : ∀ x ∈ merged, x ∈ stdoutL ∨ x ∈ stderrL)
    (hn : ∀ x ∈ nes, isErrorLine x = true → NormFallbackMsg x) :
    ∀ e ∈ ("Starting download..." :: merged ++
      "Converting to MP3 format with optimal quality..." :: nes ++
      ["Successfully saved as: " ++ f, "Conversion complete!", "DONE"]),
      isErrorLine e = true → e ∈ stdoutL ∨ e ∈ stderrL ∨ NormFallbackMsg e := by
  intro e he hiserr
  rcases List.mem_cons.mp he with rfl | he
  · exact absurd hiserr (by decide)
  rcases List.mem_append.mp he with he | he
  · rcases List.mem_append.mp he with he | he
    · rcases hm e he with h | h
      · exact Or.inl h
      · exact Or.inr (Or.inl h)
    · rcases List.mem_cons.mp he with rfl | he
      · exact absurd hiserr (by decide)
      · exact Or.inr (Or.inr (hn e he hiserr))
  · rcases List.mem_cons.mp he with rfl | he
    · rw [isErrorLine_saved] at hiserr
      exact Bool.noConfusion hiserr
    rcases List.mem_cons.mp he with rfl | he
    · exact absurd hiserr (by decide)
    rcases List.mem_cons.mp he with rfl | he
    · exact absurd hiserr (by decide)
    · exact absurd he (by simp)

/-- Full terminal-event characterization of the pipeline body: a run that
publishes ends with the success message, `Conversion complete!` and `DONE`,
and its only error-prefixed events are subprocess output lines or the
recoverable normalization-fallback messages; a run that does not publish
never emits `DONE`, contains an error event, and its last event is an error
event or the ffmpeg diagnostic line that follows one. -/
theorem convertVideoBody_classes (env : Env) (sched : List Bool) (normalize : Bool)
    (mp3Dir : String) (hout : "DONE" ∉ env.dlStdoutLines)
    (herr2 : "DONE" ∉ env.dlStderrLines) :
    (∀ f, (convertVideoBody env sched normalize mp3Dir).pubName = some f →
      (∃ p, (convertVideoBody env sched normalize mp3Dir).events =
        p ++ ["Successfully saved as: " ++ f, "Conversion complete!", "DONE"]) ∧
      (∀ e, e ∈ (convertVideoBody env sched normalize mp3Dir).events →
        isErrorLine e = true →
        e ∈ env.dlStdoutLines ∨ e ∈ env.dlStderrLines ∨ NormFallbackMsg e)) ∧
    ((convertVideoBody env sched normalize mp3Dir).pubName = none →
      "DONE" ∉ (convertVideoBody env sched normalize mp3Dir).events ∧
      (∃ e, e ∈ (convertVideoBody env sched normalize mp3Dir).events ∧
        isErrorLine e = true) ∧
      (∃ q e2 tl, (convertVideoBody env sched normalize mp3Dir).events = q ++ e2 :: tl ∧
        isErrorLine e2 = true ∧
        ∀ x ∈ tl, x ∈ env.dlStdoutLines ∨ x ∈ env.dlStderrLines ∨
          ∃ u, x = "FFmpeg output: " ++ u)) := by
  have hmm : ∀ x ∈ streamMerge sched env.dlStdoutLines env.dlStderrLines,
      x ∈ env.dlStdoutLines ∨ x ∈ env.dlStderrLines :=
    fun x hx => mem_streamMerge sched _ _ hx
  rcases htd : env.tmpDir with etd | td
  · refine ⟨fun f hf => ?_, fun _ => ?_⟩
    · simp [convertVideoBody, htd] at hf
    · have hev : (convertVideoBody env sched normalize mp3Dir).events =
          ["Starting download..."] ++ [errMsg ("Failed to create temp directory: " ++ etd)] := by
        simp [convertVideoBody, htd]
      rw [hev]
      exact failShape _ ["Starting download..."] [] _ _ rfl (by decide) (by simp) (by simp)
  rcases hti : env.titleOut with eti | rawT
  · have hgt : getVideoTitle env = Except.error eti := by
      rw [getVideoTitle, hti]
      rfl
    refine ⟨fun f hf => ?_, fun _ => ?_⟩
    · simp [convertVideoBody, htd, hgt] at hf
    · have hev : (convertVideoBody env sched normalize mp3Dir).events =
          ["Starting download..."] ++ [errMsg ("Failed to get video title: " ++ eti)] := by
        simp [convertVideoBody, htd, hgt]
      rw [hev]
      exact failShape _ ["Starting download..."] [] _ _ rfl (by decide) (by simp) (by simp)
  have hgt : getVideoTitle env = Except.ok (goTrimSpace rawT) := by
    rw [getVideoTitle, hti]
    rfl
  rcases checkFileSize_cases env.sizeOut with hcc | ⟨hcc, _⟩
  swap
  · refine ⟨fun f hf => ?_, fun _ => ?_⟩
    · simp [convertVideoBody, htd, hgt, hcc] at hf
    · have hev : (convertVideoBody env sched normalize mp3Dir).events =
          ["Starting download..."] ++ [errMsg "File too large (max 500MB)"] := by
        simp [convertVideoBody, htd, hgt, hcc]
      rw [hev]
      exact failShape _ ["Starting download..."] [] _ _ rfl (by decide) (by simp) (by simp)
  rcases downloadVideo_cases env sched with ⟨hdl2, hdl1, f0, rest, hg⟩ |
    ⟨hdl2, pdl, tdl, qdl, hdl1, hpmem, hqmem⟩
  swap
  · refine ⟨fun f hf => ?_, fun _ => ?_⟩
    · simp [convertVideoBody, htd, hgt, hcc, hdl2] at hf
    · have hev : (convertVideoBody env sched normalize mp3Dir).events =
          ("Starting download..." :: pdl) ++ errMsg tdl :: qdl := by
        simp [convertVideoBody, htd, hgt, hcc, hdl2, hdl1]
      rw [hev]
      refine failShape _ ("Starting download..." :: pdl) qdl tdl _ rfl ?_ ?_ ?_
      · intro hmem
        rcases List.mem_cons.mp hmem with hh | hh
        · exact absurd hh (by decide)
        · rcases hpmem _ hh with h | h
          · exact hout h
          · exact herr2 h
      · intro hmem
        rcases hqmem _ hmem with h | h
        · exact hout h
        · exact herr2 h
      · intro x hx
        rcases hqmem x hx with h | h
        · exact Or.inl h
        · exact Or.inr (Or.inl h)
  rcases hcv : env.convertRes with ⟨ecv, ocv⟩ | ucv
  · refine ⟨fun f hf => ?_, fun _ => ?_⟩
    · simp [convertVideoBody, htd, hgt, hcc, hdl2, hdl1, hg, hcv] at hf
    · have hev : (convertVideoBody env sched normalize mp3Dir).events =
          ("Starting download..." :: streamMerge sched env.dlStdoutLines env.dlStderrLines ++
            ["Converting to MP3 format with optimal quality..."]) ++
          [errMsg ("MP3 conversion failed: " ++ ecv), "FFmpeg output: " ++ ocv] := by
        simp [convertVideoBody, htd, hgt, hcc, hdl2, hdl1, hg, hcv]
      rw [hev]
      refine failShape _ _ ["FFmpeg output: " ++ ocv] _ _ rfl ?_ ?_ ?_
      · exact doneNotInP env.dlStdoutLines env.dlStderrLines _ [] hout herr2 hmm (by simp)
      · intro hmem
        rcases List.mem_cons.mp hmem with hh | hh
        · exact ffmpegOut_ne_done ocv hh.symm
        · exact absurd hh (by simp)
      · intro x hx
        rcases List.mem_cons.mp hx with rfl | hx
        · exact Or.inr (Or.inr ⟨ocv, rfl⟩)
        · exact absurd hx (by simp)
  rcases hna : normalizeAudio env td with ⟨nes, nres⟩
  have hnormAll := (normalizeAudio_events env td).1
  rw [hna] at hnormAll
  cases normalize with
  | false =>
    rcases moveToFinalDestination_cases env.pubFs env.pubEnv mp3Dir
        (joinPath td "converted.mp3") (goTrimSpace rawT) false env.timestamp with
      ⟨epb, hpe, _⟩ | ⟨c, hpo, _, _, _⟩
    · refine ⟨fun f hf => ?_, fun _ => ?_⟩
      · simp [convertVideoBody, htd, hgt, hcc, hdl2, hdl1, hg, hcv, hpe] at hf
      · have hev : (convertVideoBody env sched false mp3Dir).events =
            ("Starting download..." ::
              streamMerge sched env.dlStdoutLines env.dlStderrLines ++
              ["Converting to MP3 format with optimal quality..."]) ++
            [errMsg ("Failed to move file: " ++ epb)] := by
          simp [convertVideoBody, htd, hgt, hcc, hdl2, hdl1, hg, hcv, hpe]
        rw [hev]
        refine failShape _ _ [] _ _ rfl ?_ (by simp) (by simp)
        exact doneNotInP env.dlStdoutLines env.dlStderrLines _ [] hout herr2 hmm (by simp)
    · refine ⟨fun f hf => ?_, fun hn0 => ?_⟩
      · have hf2 : publishFilename (goTrimSpace rawT) false env.timestamp = f := by
          simpa [convertVideoBody, htd, hgt, hcc, hdl2, hdl1, hg, hcv, hpo] using hf
        subst hf2
        have hev : (convertVideoBody env sched false mp3Dir).events =
            "Starting download..." ::
              streamMerge sched env.dlStdoutLines env.dlStderrLines ++
            "Converting to MP3 format with optimal quality..." :: ([] : List String) ++
            ["Successfully saved as: " ++
                publishFilename (goTrimSpace rawT) false env.timestamp,
              "Conversion complete!", "DONE"] := by
          simp [convertVideoBody, htd, hgt, hcc, hdl2, hdl1, hg, hcv, hpo]
        constructor
        · exact ⟨_, hev⟩
        · rw [hev]
          exact successClassify env.dlStdoutLines env.dlStderrLines _ [] _ hmm (by simp)
      · simp [convertVideoBody, htd, hgt, hcc, hdl2, hdl1, hg, hcv, hpo] at hn0
  | true =>
    cases nres with
    | error ev =>
      rcases moveToFinalDestination_cases env.pubFs env.pubEnv mp3Dir
          (joinPath td "converted.mp3") (goTrimSpace rawT) true env.timestamp with
        ⟨epb, hpe, _⟩ | ⟨c, hpo, _, _, _⟩
      · refine ⟨fun f hf => ?_, fun _ => ?_⟩
        · simp [convertVideoBody, htd, hgt, hcc, hdl2, hdl1, hg, hcv, hna, hpe] at hf
        · have hev : (convertVideoBody env sched true mp3Dir).events =
              ("Starting download..." ::
                streamMerge sched env.dlStdoutLines env.dlStderrLines ++
                "Converting to MP3 format with optimal quality..." :: nes) ++
              [errMsg ("Failed to move file: " ++ epb)] := by
            simp [convertVideoBody, htd, hgt, hcc, hdl2, hdl1, hg, hcv, hna, hpe]
          rw [hev]
          refine failShape _ _ [] _ _ rfl ?_ (by simp) (by simp)
          exact doneNotInP env.dlStdoutLines env.dlStderrLines _ nes hout herr2 hmm
            (fun x hx => (hnormAll x hx).1)
      · refine ⟨fun f hf => ?_, fun hn0 => ?_⟩
        · have hf2 : publishFilename (goTrimSpace rawT) true env.timestamp = f := by
            simpa [convertVideoBody, htd, hgt, hcc, hdl2, hdl1, hg, hcv, hna, hpo] using hf
          subst hf2
          have hev : (convertVideoBody env sched true mp3Dir).events =
              "Starting download..." ::
                streamMerge sched env.dlStdoutLines env.dlStderrLines ++
              "Converting to MP3 format with optimal quality..." :: nes ++
              ["Successfully saved as: " ++
                  publishFilename (goTrimSpace rawT) true env.timestamp,
                "Conversion complete!", "DONE"] := by
            simp [convertVideoBody, htd, hgt, hcc, hdl2, hdl1, hg, hcv, hna, hpo]
          constructor
          · exact ⟨_, hev⟩
          · rw [hev]
            exact successClassify env.dlStdoutLines env.dlStderrLines _ nes _ hmm
              (fun x hx => (hnormAll x hx).2)
        · simp [convertVideoBody, htd, hgt, hcc, hdl2, hdl1, hg, hcv, hna, hpo] at hn0
    | ok nf =>
      rcases moveToFinalDestination_cases env.pubFs env.pubEnv mp3Dir nf
          (goTrimSpace rawT) true env.timestamp with
        ⟨epb, hpe, _⟩ | ⟨c, hpo, _, _, _⟩
      · refine ⟨fun f hf => ?_, fun _ => ?_⟩
        · simp [convertVideoBody, htd, hgt, hcc, hdl2, hdl1, hg, hcv, hna, hpe] at hf
        · have hev : (convertVideoBody env sched true mp3Dir).events =
              ("Starting download..." ::
                streamMerge sched env.dlStdoutLines env.dlStderrLines ++
                "Converting to MP3 format with optimal quality..." :: nes) ++
              [errMsg ("Failed to move file: " ++ epb)] := by
            simp [convertVideoBody, htd, hgt, hcc, hdl2, hdl1, hg, hcv, hna, hpe]
          rw [hev]
          refine failShape _ _ [] _ _ rfl ?_ (by simp) (by simp)
          exact doneNotInP env.dlStdoutLines env.dlStderrLines _ nes hout herr2 hmm
            (fun x hx => (hnormAll x hx).1)
      · refine ⟨fun f hf => ?_, fun hn0 => ?_⟩
        · have hf2 : publishFilename (goTrimSpace rawT) true env.timestamp = f := by
            simpa [convertVideoBody, htd, hgt, hcc, hdl2, hdl1, hg, hcv, hna, hpo] using hf
          subst hf2
          have hev : (convertVideoBody env sched true mp3Dir).events =
              "Starting download..." ::
                streamMerge sched env.dlStdoutLines env.dlStderrLines ++
              "Converting to MP3 format with optimal quality..." :: nes ++
              ["Successfully saved as: " ++
                  publishFilename (goTrimSpace rawT) true env.timestamp,
                "Conversion complete!", "DONE"] := by
            simp [convertVideoBody, htd, hgt, hcc, hdl2, hdl1, hg, hcv, hna, hpo]
          constructor
          · exact ⟨_, hev⟩
          · rw [hev]
            exact successClassify env.dlStdoutLines env.dlStderrLines _ nes _ hmm
              (fun x hx => (hnormAll x hx).2)
        · simp [convertVideoBody, htd, hgt, hcc, hdl2, hdl1, hg, hcv, hna, hpo] at hn0

/-! ### Claim C2 -/

/-- Claim C2, counterexample: a run whose normalization pass fails emits an
`Error:`-prefixed event (position 3) and later still emits `DONE` as its
last event, so no-error-before-DONE fails on the code. -/
theorem claim2_counterexample :
    isErrorLine
      ((convertVideo envNormFail [] (fun _ => none) "sid" true "mp3s").events.getD 3 "")
      = true ∧
    (convertVideo envNormFail [] (fun _ => none) "sid" true "mp3s").events.getD 7 ""
      = "DONE" ∧
    (convertVideo envNormFail [] (fun _ => none) "sid" true "mp3s").events.length = 8 := by
  refine ⟨?_, ?_, ?_⟩ <;> decide

/-- Claim C2 (amended): provided the download subprocess lines are not the
literal `DONE` sentinel, every run either publishes — its events end with
the success message, `Conversion complete!` and `DONE`, and its only
`Error:`-prefixed events are subprocess output lines or the recoverable
normalization-fallback messages — or it does not publish, in which case
`DONE` is never emitted, an `Error:`-prefixed event occurs, and after that
error event only raw subprocess output lines (possible because the source
skips `wg.Wait()` on the `cmd.Wait` error path) or the `FFmpeg output:`
diagnostic are delivered before the channel closes. -/
theorem claim2_terminalClasses (env : Env) (sched : List Bool) (reg : Registry)
    (sid : String) (normalize : Bool) (mp3Dir : String)
    (hout : "DONE" ∉ env.dlStdoutLines) (herrs : "DONE" ∉ env.dlStderrLines) :
    (∀ f, (convertVideo env sched reg sid normalize mp3Dir).pubName = some f →
      (∃ p, (convertVideo env sched reg sid normalize mp3Dir).events =
        p ++ ["Successfully saved as: " ++ f, "Conversion complete!", "DONE"]) ∧
      (∀ e, e ∈ (convertVideo env sched reg sid normalize mp3Dir).events →
        isErrorLine e = true →
        e ∈ env.dlStdoutLines ∨ e ∈ env.dlStderrLines ∨ NormFallbackMsg e)) ∧
    ((convertVideo env sched reg sid normalize mp3Dir).pubName = none →
      "DONE" ∉ (convertVideo env sched reg sid normalize mp3Dir).events ∧
      (∃ e, e ∈ (convertVideo env sched reg sid normalize mp3Dir).events ∧
        isErrorLine e = true) ∧
      (∃ q e2 tl, (convertVideo env sched reg sid normalize mp3Dir).events =
          q ++ e2 :: tl ∧ isErrorLine e2 = true ∧
        ∀ x ∈ tl, x ∈ env.dlStdoutLines ∨ x ∈ env.dlStderrLines ∨
          ∃ u, x = "FFmpeg output: " ++ u)) :=
  convertVideoBody_classes env sched normalize mp3Dir hout herrs

/-- Claim C2, witness for the amended theorem at a concrete successful run. -/
theorem claim2_terminalClasses_witness :
    ∃ p, (convertVideo envTwoLines [true] (fun _ => none) "sid" false "mp3s").events =
      p ++ ["Successfully saved as: " ++ publishFilename "My Title" false "20250101_000000",
            "Conversion complete!", "DONE"] :=
  ((claim2_terminalClasses envTwoLines [true] (fun _ => none) "sid" false "mp3s"
      (by decide) (by decide)).1 (publishFilename "My Title" false "20250101_000000")
    (by decide)).1

end Mp3Rss
